import Mathlib

/-!
# Verification of the Emotions-Models-Client inference pipeline

Shallow embedding of the landmark-preprocessing, normalization, softmax
post-processing, model-switching and face-crop logic of the
Emotions-Models-Client repository, together with proofs of the spec's
testable properties.

Conventions:
* JavaScript numbers on purely arithmetical code paths (bucket mapping,
  renormalization by division, crop geometry, registry state) are embedded
  as `ℚ`, keeping the definitions computable and decidable.
* Code paths that use `Math.sqrt` / `Math.exp` (distance normalization,
  inter-ocular normalization, softmax) are embedded over `ℝ`.
* A landmark coordinate triple is `Point3 := ℝ × ℝ × ℝ` (resp. rational
  structures where the claim is purely structural).
-/

namespace EmotionsClient

/-! ## Model registry and `switchModel` (src/config/modelConfig.js,
src/services/emotionOnnxService.js) -/

/-- Input format descriptor of a model configuration
(`inputFormat` in src/config/modelConfig.js). -/
structure InputFormat where
  sequenceLength : Nat
  numLandmarks : Nat
  numCoords : Nat
  requiresNormalization : Bool
deriving DecidableEq, Repr

/-- Model configuration entry of the static registry
(src/config/modelConfig.js). Only the fields the verified pipeline reads
are carried. -/
structure ModelConfig where
  id : String
  inputFormat : InputFormat
deriving DecidableEq, Repr

/-- The single registry entry of src/src/config/modelConfig.js:
`emotion_transformer_v1`, shape `[1, 478, 3]`, normalization disabled. -/
def emotionTransformerV1 : ModelConfig :=
  { id := "emotion_transformer_v1"
    inputFormat :=
      { sequenceLength := 1
        numLandmarks := 478
        numCoords := 3
        requiresNormalization := false } }

/-- The static `MODEL_CONFIGS` mapping of src/src/config/modelConfig.js
(one entry). -/
def MODEL_CONFIGS : List ModelConfig := [emotionTransformerV1]

/-- `getModelConfig(modelId)` of src/config/modelConfig.js: lookup in the
static registry. -/
def getModelConfig (modelId : String) : Option ModelConfig :=
  MODEL_CONFIGS.find? (fun c => c.id = modelId)

/-- Mutable state of the service module: the `onnxSession` and
`currentModelConfig` module-level variables of
src/services/emotionOnnxService.js together with the registry's
`currentActiveModelId`.  A live session is `some n` (the handle is opaque,
modelled as a number). -/
structure ServiceState where
  onnxSession : Option Nat
  currentModelConfig : Option ModelConfig
  activeModelId : String
deriving DecidableEq, Repr

/-- `setActiveModel(modelId)` of src/config/modelConfig.js: succeeds and
points the registry at `modelId` iff the id is registered. -/
def setActiveModel (modelId : String) (st : ServiceState) : Bool × ServiceState :=
  if (getModelConfig modelId).isSome then
    (true, { st with activeModelId := modelId })
  else
    (false, st)

/-- `switchModel(modelId)` of src/services/emotionOnnxService.js
(lines 438-457): looks the id up, sets it active, then unconditionally
clears `onnxSession` and `currentModelConfig` ("Force re-initialization on
next predict/load") and returns `true`.  There is no already-active
short-circuit. -/
def switchModel (modelId : String) (st : ServiceState) : Bool × ServiceState :=
  match getModelConfig modelId with
  | none => (false, st)
  | some _ =>
    let r := setActiveModel modelId st
    if r.1 then
      (true, { r.2 with onnxSession := none, currentModelConfig := none })
    else
      (false, r.2)

/-! ## Regression score bucket mapping
(`mapScoreToClassDetails`, src/services/emotionOnnxService.js 242-271) -/

/-- The class-index branch ladder of `mapScoreToClassDetails`.  Boundaries
are the literals of the source: 0.175, 0.40, 0.60, 0.825.  `-1` encodes
"no bucket" (score out of `[0,1]`). -/
def scoreToClassIndex (score : ℚ) : Int :=
  if ¬ (0 ≤ score ∧ score ≤ 1) then -1
  else if 0 ≤ score ∧ score < 7/40 then 4        -- SNP
  else if 7/40 ≤ score ∧ score < 2/5 then 0      -- Not Engaged
  else if 2/5 ≤ score ∧ score < 3/5 then 1       -- Barely Engaged
  else if 3/5 ≤ score ∧ score < 33/40 then 2     -- Engaged
  else if 33/40 ≤ score ∧ score ≤ 1 then 3       -- Highly Engaged
  else -1

/-- The default fallback label table of `mapScoreToClassDetails`
(`{0:'Not Engaged', 1:'Barely Engaged', 2:'Engaged', 3:'Highly Engaged',
4:'SNP'}`). -/
def engagementFallbackLabels (i : Int) : Option String :=
  if i = 0 then some "Not Engaged"
  else if i = 1 then some "Barely Engaged"
  else if i = 2 then some "Engaged"
  else if i = 3 then some "Highly Engaged"
  else if i = 4 then some "SNP"
  else none

/-- `mapScoreToClassDetails(score, classLabels)` of
src/services/emotionOnnxService.js, reduced to the `(index, name)` pair of
the returned details object. -/
def mapScoreToClassDetails (score : ℚ) (labels : Int → Option String) : Int × String :=
  let classIndex := scoreToClassIndex score
  if classIndex ≠ -1 then
    match labels classIndex with
    | some name => (classIndex, name)
    | none => (classIndex, "Unknown Index")
  else if ¬ (0 ≤ score ∧ score ≤ 1) then (-1, "Invalid Score Range")
  else (-1, "Prediction Failed")

/-! ## Ignored-emotion renormalization
(`handleResults`, src/unnamed/part_003 lines 291-297) -/

/-- One labelled probability entry, as built by
`probs.map((p, idx) => ({label, probability}))` in `handleResults`. -/
structure LabeledProb where
  label : String
  probability : ℚ
deriving DecidableEq, Repr

/-- JavaScript `x || 1` for a number `x`: `1` when `x` is falsy (zero). -/
def orOne (s : ℚ) : ℚ := if s = 0 then 1 else s

/-- The ignored-emotion renormalization of `handleResults`
(src/unnamed/part_003 lines 291-293): drop ignored labels, sum the rest,
divide by that sum (`|| 1` guards a zero sum). -/
def renormalizeIgnored (mapped : List LabeledProb) (ignoredEmotions : List String) :
    List LabeledProb :=
  let remaining := mapped.filter (fun item => !(ignoredEmotions.contains item.label))
  let total := orOne (remaining.map (fun item => item.probability)).sum
  remaining.map (fun item => { label := item.label, probability := item.probability / total })

/-- The `best` selection of `handleResults` (src/unnamed/part_003
line 295): `reduce` with initial `{label:'', probability:0}`, replacing
only on strictly greater probability. -/
def bestOf (normalized : List LabeledProb) : LabeledProb :=
  normalized.foldl
    (fun maxItem item => if maxItem.probability < item.probability then item else maxItem)
    { label := "", probability := 0 }

/-! ## Face crop stage (src/unnamed/part_007, `FaceCloseUpStage`) -/

/-- Axis-aligned face bounding box in pixel space. -/
structure FaceBox where
  x : ℚ
  y : ℚ
  width : ℚ
  height : ℚ
deriving DecidableEq, Repr

/-- Crop geometry computed by `FaceCloseUpStage.processCanvas`: source
rectangle and output canvas size (the encoded JPEG artifact is abstracted
by its geometry). -/
structure CropResult where
  sx : ℚ
  sy : ℚ
  sw : ℚ
  sh : ℚ
  outW : ℚ
  outH : Int
deriving DecidableEq, Repr

/-- JavaScript `Math.round`: round half towards positive infinity. -/
def jsRound (q : ℚ) : Int := ⌊q + 1/2⌋

/-- `FaceCloseUpStage.processCanvas(canvas, faceBox)`
(src/unnamed/part_007 lines 37-63): `null` when no box is supplied,
otherwise pad by `paddingFactor`, clamp to the canvas, and resize to
`outputWidth` with height `Math.max(1, Math.round((h / w) * outputWidth))`. -/
def processCanvas (outputWidth paddingFactor : ℚ) (canvasW canvasH : ℚ)
    (faceBox : Option FaceBox) : Option CropResult :=
  match faceBox with
  | none => none
  | some fb =>
    let padW := fb.width * paddingFactor
    let padH := fb.height * paddingFactor
    let x := max 0 (fb.x - padW)
    let y := max 0 (fb.y - padH)
    let w := min canvasW (fb.x + fb.width + padW) - x
    let h := min canvasH (fb.y + fb.height + padH) - y
    let outH := max 1 (jsRound (h / w * outputWidth))
    some { sx := x, sy := y, sw := w, sh := h, outW := outputWidth, outH := outH }

/-- The crop step of `handleResults` (src/unnamed/part_003 lines 398-409):
the stage is invoked only under the guard `boxWidth > 0 && boxHeight > 0`;
otherwise the crop is skipped (`none`). -/
def handleResultsCropStep (outputWidth paddingFactor canvasW canvasH : ℚ)
    (minX minY maxX maxY : ℚ) : Option CropResult :=
  let boxWidth := maxX - minX
  let boxHeight := maxY - minY
  if 0 < boxWidth ∧ 0 < boxHeight then
    processCanvas outputWidth paddingFactor canvasW canvasH
      (some { x := minX, y := minY, width := boxWidth, height := boxHeight })
  else
    none

/-! ## Landmark points and distance normalization
(`applyDistanceNormalization`, src/services/emotionOnnxService.js 167-240) -/

/-- A landmark coordinate triple `[x, y, z]` over `ℝ`. -/
abbrev Point3 : Type := ℝ × ℝ × ℝ

/-- The sentinel triple `[-1, -1, -1]` used for unfilled landmark slots. -/
def sentinelPoint : Point3 := (-1, -1, -1)

/-- Reference indices of `applyDistanceNormalization`
(src/services/emotionOnnxService.js lines 13-15). -/
def NOSE_TIP_IDX : Nat := 1

/-- Left outer eye corner index used by `applyDistanceNormalization`. -/
def LEFT_EYE_OUTER_IDX : Nat := 33

/-- Right outer eye corner index used by `applyDistanceNormalization`. -/
def RIGHT_EYE_OUTER_IDX : Nat := 263

/-- `coords.some(val => val === -1.0)`: the triple contains the sentinel
value in at least one coordinate. -/
def HasSentinel (c : Point3) : Prop := c.1 = -1 ∨ c.2.1 = -1 ∨ c.2.2 = -1

/-- `frameLandmarks.every(coords => coords.every(val => val === -1.0))`:
every triple of the frame is the full sentinel. -/
def FrameAllSentinel (frame : List Point3) : Prop :=
  ∀ c ∈ frame, c = sentinelPoint

/-- The `isInvalid` reference check of `applyDistanceNormalization`
(lines 186-189).  Accessing a reference index beyond the frame's length
throws in JavaScript and the surrounding `catch` pushes the frame
unchanged; taking the sentinel as the `getD` default makes the embedded
check hold in exactly that case, with the same unchanged-frame outcome. -/
def RefsInvalid (frame : List Point3) : Prop :=
  HasSentinel (frame.getD NOSE_TIP_IDX sentinelPoint) ∨
  HasSentinel (frame.getD LEFT_EYE_OUTER_IDX sentinelPoint) ∨
  HasSentinel (frame.getD RIGHT_EYE_OUTER_IDX sentinelPoint)

/-- The `scaleDistance` of `applyDistanceNormalization` (lines 205-208):
planar distance between the two outer eye corner landmarks. -/
noncomputable def scaleDistanceOf (frame : List Point3) : ℝ :=
  let p1 := frame.getD LEFT_EYE_OUTER_IDX sentinelPoint
  let p2 := frame.getD RIGHT_EYE_OUTER_IDX sentinelPoint
  Real.sqrt ((p1.1 - p2.1) ^ 2 + (p1.2.1 - p2.2.1) ^ 2)

open Classical in
/-- The `translatedLandmarks` map of `applyDistanceNormalization`
(lines 196-203): subtract the nose-tip coordinates, passing sentinel
triples through. -/
noncomputable def translatedFrame (frame : List Point3) : List Point3 :=
  let center := frame.getD NOSE_TIP_IDX sentinelPoint
  frame.map (fun c =>
    if HasSentinel c then c
    else (c.1 - center.1, c.2.1 - center.2.1, c.2.2 - center.2.2))

/-- Euclidean norm of a coordinate triple (`distanceFromCenter`). -/
noncomputable def norm3 (c : Point3) : ℝ :=
  Real.sqrt (c.1 ^ 2 + c.2.1 ^ 2 + c.2.2 ^ 2)

open Classical in
/-- The per-point scaling of `applyDistanceNormalization` (lines 214-231):
sentinel triples pass through; a point farther than `5 * scaleDistance`
from the center is pulled back to that boundary before the division by
`scaleDistance`. -/
noncomputable def scaleClampPoint (scaleDistance : ℝ) (c : Point3) : Point3 :=
  if HasSentinel c then c
  else
    let distanceFromCenter := norm3 c
    let distanceThreshold := 5 * scaleDistance
    if distanceThreshold < distanceFromCenter then
      let scaleFactor := distanceThreshold / distanceFromCenter
      (c.1 * scaleFactor / scaleDistance,
       c.2.1 * scaleFactor / scaleDistance,
       c.2.2 * scaleFactor / scaleDistance)
    else
      (c.1 / scaleDistance, c.2.1 / scaleDistance, c.2.2 / scaleDistance)

open Classical in
/-- The per-frame body of `applyDistanceNormalization`
(src/services/emotionOnnxService.js lines 174-237). -/
noncomputable def normalizeFrame (frame : List Point3) : List Point3 :=
  if FrameAllSentinel frame then frame
  else if RefsInvalid frame then frame
  else
    let translated := translatedFrame frame
    let sd := scaleDistanceOf frame
    if sd < 1e-6 then translated
    else translated.map (scaleClampPoint sd)

/-- `applyDistanceNormalization(landmarksFrames)`: the per-frame body
applied to every frame in order. -/
noncomputable def applyDistanceNormalization (landmarksFrames : List (List Point3)) :
    List (List Point3) :=
  landmarksFrames.map normalizeFrame

/-! ## Tensor builder (`preprocessLandmarks`,
src/services/emotionOnnxService.js 129-165) -/

/-- One raw input landmark entry: `some p` when the entry has numeric
`x`, `y`, `z` fields, `none` when it is absent or malformed. -/
abbrev LmEntry : Type := Option Point3

/-- The frame-wrapping at the top of `preprocessLandmarks`
(lines 131-135): an array whose first entry has a numeric `x` is a single
frame and is wrapped; otherwise the array itself is traversed as the frame
list.  In the latter case each entry, used as a frame, has an undefined
`length`, so the fill loop bound `Math.min(frame.length, NUM_LANDMARKS)`
is `NaN` and no slot is filled — the entry acts as an empty frame. -/
def toFrames (landmarks : List LmEntry) : List (List LmEntry) :=
  match landmarks with
  | [] => []
  | some _ :: _ => [landmarks]
  | none :: _ => landmarks.map (fun _ => [])

/-- The per-frame fill of `preprocessLandmarks` (lines 141-152): slots are
initialized to the sentinel and slot `j` receives the input entry exactly
when entry `j` exists and is valid. -/
def buildFrameArray (numLandmarks : Nat) (frame : List LmEntry) : List Point3 :=
  (List.range numLandmarks).map (fun j =>
    match frame[j]? with
    | some (some p) => p
    | _ => sentinelPoint)

/-- `preprocessLandmarks` up to the flattening step: build `SEQ_LEN`
frame arrays, then normalize iff the active config requires it. -/
noncomputable def preprocessFrames (cfg : ModelConfig) (frames : List (List LmEntry)) :
    List (List Point3) :=
  let processed := (List.range cfg.inputFormat.sequenceLength).map
    (fun i => buildFrameArray cfg.inputFormat.numLandmarks (frames.getD i []))
  if cfg.inputFormat.requiresNormalization then applyDistanceNormalization processed
  else processed

/-- A coordinate triple flattened to its three numbers. -/
def coordsList (c : Point3) : List ℝ := [c.1, c.2.1, c.2.2]

/-- `preprocessLandmarks(landmarks)` (lines 129-165): frame wrapping,
sentinel fill, optional normalization, then `flat(2)` into the flat
buffer handed to the tensor constructor. -/
noncomputable def preprocessLandmarks (cfg : ModelConfig) (landmarks : List LmEntry) :
    List ℝ :=
  ((preprocessFrames cfg (toFrames landmarks)).map
    (fun fr => (fr.map coordsList).flatten)).flatten

/-! ## Softmax post-processing (`mapClassificationLogitsToClassDetails`,
src/services/emotionOnnxService.js 273-303) -/

/-- `Math.max(...l)` for a nonempty list.  (`Math.max()` of an empty list
is `-Infinity`; the value at `[]` here is irrelevant: every verified path
is restricted to nonempty logit vectors.) -/
noncomputable def jsMax : List ℝ → ℝ
  | [] => 0
  | x :: xs => xs.foldl max x

/-- The numerically-stable softmax of
`mapClassificationLogitsToClassDetails` (lines 280-283): subtract the max
logit, exponentiate, divide by the sum. -/
noncomputable def softmaxProbabilities (logits : List ℝ) : List ℝ :=
  let maxLogit := jsMax logits
  let expLogits := logits.map (fun l => Real.exp (l - maxLogit))
  let sumExp := expLogits.sum
  expLogits.map (fun e => e / sumExp)

/-- The argmax scan of `mapClassificationLogitsToClassDetails`
(lines 286-293): carry the running best index and value, replacing only on
a strictly greater value. -/
noncomputable def argmaxAux : List ℝ → Nat → Nat → ℝ → Nat × ℝ
  | [], _, bi, bv => (bi, bv)
  | x :: xs, i, bi, bv =>
    if bv < x then argmaxAux xs (i + 1) i x else argmaxAux xs (i + 1) bi bv

/-- The `classIndex` selected by the scan: `maxProb` starts at
`-Infinity` and `classIndex` at `-1`, so on a nonempty list the first
element always replaces the initial state and the scan continues with
index `0`. -/
noncomputable def classIndexOf (probabilities : List ℝ) : Int :=
  match probabilities with
  | [] => -1
  | x :: xs => ((argmaxAux xs 1 0 x).1 : Int)

/-- The details object returned by `mapClassificationLogitsToClassDetails`
(index, name and probability vector; `raw_logits` is the input itself). -/
structure ClassDetails where
  index : Int
  name : String
  probabilities : List ℝ

/-- `mapClassificationLogitsToClassDetails(logits, classLabels)`
(src/services/emotionOnnxService.js 273-303). -/
noncomputable def mapClassificationLogitsToClassDetails (logits : List ℝ)
    (labels : Int → Option String) : ClassDetails :=
  let probabilities := softmaxProbabilities logits
  let classIndex := classIndexOf probabilities
  match labels classIndex with
  | some name => { index := classIndex, name := name, probabilities := probabilities }
  | none =>
    if classIndex ≠ -1 then
      { index := classIndex, name := "Unknown Index", probabilities := probabilities }
    else
      { index := -1, name := "Classification Failed", probabilities := probabilities }

/-! ## Inter-ocular normalization (`normalizeLandmarks`,
src/unnamed/part_006 lines 116-154) -/

/-- `LANDMARK_SETTINGS.NOSE_TIP_INDEX` (src/config/config.js). -/
def NOSE_TIP_INDEX : Nat := 1

/-- `LANDMARK_SETTINGS.LEFT_EYE_INNER_CORNER_INDEX`. -/
def LEFT_EYE_INNER_CORNER_INDEX : Nat := 133

/-- `LANDMARK_SETTINGS.RIGHT_EYE_INNER_CORNER_INDEX`. -/
def RIGHT_EYE_INNER_CORNER_INDEX : Nat := 362

/-- The fallback ladder of `normalizeLandmarks` (lines 142-145): a
near-zero inter-ocular distance falls back to `imageWidth / 4`, and if
that is also near-zero, to `1.0`. -/
noncomputable def interOcularScale (dist imageWidth : ℝ) : ℝ :=
  if dist < 1e-6 then
    (if imageWidth / 4 < 1e-6 then 1 else imageWidth / 4)
  else dist

/-- The `landmarksAbs3d` pixel-space conversion of `normalizeLandmarks`
(lines 122-126): `z` scales by the width, as in the Python script. -/
noncomputable def landmarksAbs3d (landmarks : List Point3)
    (imageWidth imageHeight : ℝ) : List Point3 :=
  landmarks.map (fun lm => (lm.1 * imageWidth, lm.2.1 * imageHeight, lm.2.2 * imageWidth))

/-- The `landmarksCentered3d` nose-tip centering of `normalizeLandmarks`
(lines 128-133). -/
noncomputable def landmarksCentered3d (landmarks : List Point3)
    (imageWidth imageHeight : ℝ) : List Point3 :=
  let abs3d := landmarksAbs3d landmarks imageWidth imageHeight
  let noseTip := abs3d.getD NOSE_TIP_INDEX (0, 0, 0)
  abs3d.map (fun lm => (lm.1 - noseTip.1, lm.2.1 - noseTip.2.1, lm.2.2 - noseTip.2.2))

/-- The raw inter-ocular distance of `normalizeLandmarks` (lines
135-140): planar distance between the centered inner eye corners. -/
noncomputable def interOcularRaw (landmarks : List Point3)
    (imageWidth imageHeight : ℝ) : ℝ :=
  let centered := landmarksCentered3d landmarks imageWidth imageHeight
  let pL := centered.getD LEFT_EYE_INNER_CORNER_INDEX (0, 0, 0)
  let pR := centered.getD RIGHT_EYE_INNER_CORNER_INDEX (0, 0, 0)
  let dx := pL.1 - pR.1
  let dy := pL.2.1 - pR.2.1
  Real.sqrt (dx * dx + dy * dy)

/-- `normalizeLandmarks(landmarks, imageWidth, imageHeight)`
(src/unnamed/part_006 lines 116-154): length check, pixel-space scaling,
nose-tip centering, then division by the (fallback-guarded) inter-ocular
distance. -/
noncomputable def normalizeLandmarks (landmarks : List Point3)
    (imageWidth imageHeight : ℝ) : Option (List Point3) :=
  if landmarks.length ≠ 478 then none
  else
    let interOcularDistance :=
      interOcularScale (interOcularRaw landmarks imageWidth imageHeight) imageWidth
    some ((landmarksCentered3d landmarks imageWidth imageHeight).map (fun lm =>
      (lm.1 / interOcularDistance, lm.2.1 / interOcularDistance,
       lm.2.2 / interOcularDistance)))

/-! ## Concrete example inputs used by witnesses and counterexamples -/

/-- `getActiveModelConfig()` at module start: the registry's single entry
is the initial active model (src/src/config/modelConfig.js line 31). -/
def getActiveModelConfig : ModelConfig := emotionTransformerV1

/-- A service state with a live session bound to the active model. -/
def liveState : ServiceState :=
  { onnxSession := some 7
    currentModelConfig := some emotionTransformerV1
    activeModelId := "emotion_transformer_v1" }

/-- The spec's three-class example distribution `[0.2, 0.3, 0.5]`, with
labels of the active model's class table. -/
def exampleProbs : List LabeledProb :=
  [{ label := "Neutral", probability := 1/5 },
   { label := "Happy", probability := 3/10 },
   { label := "Sad", probability := 1/2 }]

/-- A frame long enough to reach the outer-eye reference indices: all
origin points except a unit offset at the left outer eye corner, giving
inter-eye scale distance 1. -/
noncomputable def exampleFrame : List Point3 :=
  (List.replicate 264 ((0 : ℝ), (0 : ℝ), (0 : ℝ))).set 33 (1, 0, 0)

/-! # Theorems -/

/-- Sum of a list after dividing every element by a constant. -/
theorem list_sum_map_div {α : Type} [DivisionRing α] (l : List α) (c : α) :
    (l.map (fun x => x / c)).sum = l.sum / c := by
  induction l with
  | nil => simp
  | cons x xs ih => simp [ih, add_div]

/-- C4 counterexample: calling `switchModel` with the id of the currently
active model while a live session exists returns `true` but does not keep
the session — `onnxSession` is cleared, so the session handle does not
remain the same live session. -/
theorem switchModel_active_id_clears_session :
    (switchModel "emotion_transformer_v1" liveState).1 = true ∧
    (switchModel "emotion_transformer_v1" liveState).2.onnxSession = none ∧
    (switchModel "emotion_transformer_v1" liveState).2.onnxSession ≠
      liveState.onnxSession := by
  decide

/-- C4 (amended): `switchModel` with any registered id — the currently
active one included — returns `true` and unconditionally clears the
session and the cached config, deferring re-initialization to the next
use; there is no live-session no-op path. -/
theorem switchModel_always_reloads (modelId : String) (st : ServiceState)
    (h : (getModelConfig modelId).isSome) :
    switchModel modelId st =
      (true,
       { onnxSession := none, currentModelConfig := none, activeModelId := modelId }) := by
  unfold switchModel setActiveModel
  match hm : getModelConfig modelId with
  | none => rw [hm] at h; simp at h
  | some c => simp [hm]

/-- Witness for `switchModel_always_reloads` at the active model id and a
live-session state. -/
theorem switchModel_always_reloads_witness :
    switchModel "emotion_transformer_v1" liveState =
      (true,
       { onnxSession := none, currentModelConfig := none,
         activeModelId := "emotion_transformer_v1" }) :=
  switchModel_always_reloads "emotion_transformer_v1" liveState (by decide)

/-- C5 counterexample: a clamped score of 0.5 falls in the bucket
`[0.40, 0.60)`, which is class index 1, "Barely Engaged" — not the
"Engaged" bucket (class index 2, `[0.60, 0.825)`). -/
theorem score_half_not_engaged :
    mapScoreToClassDetails (1/2) engagementFallbackLabels = (1, "Barely Engaged") ∧
    ("Barely Engaged" : String) ≠ "Engaged" ∧
    engagementFallbackLabels 2 = some "Engaged" := by
  refine ⟨?_, by decide, by decide⟩
  norm_num [mapScoreToClassDetails, scoreToClassIndex, engagementFallbackLabels]

/-- C5 (amended): `mapScoreToClassDetails` assigns buckets by the fixed
half-open intervals `[0, 0.175) ↦ SNP(4)`, `[0.175, 0.40) ↦ Not
Engaged(0)`, `[0.40, 0.60) ↦ Barely Engaged(1)`, `[0.60, 0.825) ↦
Engaged(2)`, `[0.825, 1] ↦ Highly Engaged(3)`; score 0.5 therefore maps to
the "Barely Engaged" bucket, and a score exactly at a boundary (0.175)
maps to the upper of the two buckets it separates. -/
theorem mapScoreToClassDetails_buckets (s : ℚ) :
    mapScoreToClassDetails (1/2) engagementFallbackLabels = (1, "Barely Engaged") ∧
    mapScoreToClassDetails (7/40) engagementFallbackLabels = (0, "Not Engaged") ∧
    (0 ≤ s ∧ s < 7/40 → scoreToClassIndex s = 4) ∧
    (7/40 ≤ s ∧ s < 2/5 → scoreToClassIndex s = 0) ∧
    (2/5 ≤ s ∧ s < 3/5 → scoreToClassIndex s = 1) ∧
    (3/5 ≤ s ∧ s < 33/40 → scoreToClassIndex s = 2) ∧
    (33/40 ≤ s ∧ s ≤ 1 → scoreToClassIndex s = 3) := by
  refine ⟨by norm_num [mapScoreToClassDetails, scoreToClassIndex, engagementFallbackLabels],
    by norm_num [mapScoreToClassDetails, scoreToClassIndex, engagementFallbackLabels],
    ?_, ?_, ?_, ?_, ?_⟩ <;>
    rintro ⟨ha, hb⟩ <;>
    simp only [scoreToClassIndex] <;>
    rw [if_neg (not_not_intro ⟨by linarith, by linarith⟩)]
  · rw [if_pos ⟨ha, hb⟩]
  · rw [if_neg (by rintro ⟨-, hc⟩; linarith), if_pos ⟨ha, hb⟩]
  · rw [if_neg (by rintro ⟨-, hc⟩; linarith),
      if_neg (by rintro ⟨-, hc⟩; linarith), if_pos ⟨ha, hb⟩]
  · rw [if_neg (by rintro ⟨-, hc⟩; linarith),
      if_neg (by rintro ⟨-, hc⟩; linarith),
      if_neg (by rintro ⟨-, hc⟩; linarith), if_pos ⟨ha, hb⟩]
  · rw [if_neg (by rintro ⟨-, hc⟩; linarith),
      if_neg (by rintro ⟨-, hc⟩; linarith),
      if_neg (by rintro ⟨-, hc⟩; linarith),
      if_neg (by rintro ⟨-, hc⟩; linarith), if_pos ⟨ha, hb⟩]

/-- Witness for `mapScoreToClassDetails_buckets`: at the boundary score
0.175 the selected bucket is the upper one, class index 0. -/
theorem mapScoreToClassDetails_buckets_witness :
    scoreToClassIndex (7/40) = 0 :=
  ((mapScoreToClassDetails_buckets (7/40)).2.2.2.1) ⟨by norm_num, by norm_num⟩

/-- Unfolded form of `renormalizeIgnored`. -/
theorem renormalizeIgnored_eq (mapped : List LabeledProb) (ignored : List String) :
    renormalizeIgnored mapped ignored =
      (mapped.filter (fun item => !(ignored.contains item.label))).map
        (fun item =>
          { label := item.label
            probability := item.probability /
              orOne ((mapped.filter (fun item => !(ignored.contains item.label))).map
                (fun item => item.probability)).sum }) := rfl

/-- Sum of the probabilities after the per-item division step. -/
theorem sum_proj_div (l : List LabeledProb) (c : ℚ) :
    ((l.map (fun item =>
        ({ label := item.label, probability := item.probability / c } : LabeledProb))).map
      (fun item => item.probability)).sum =
    (l.map (fun item => item.probability)).sum / c := by
  induction l with
  | nil => simp
  | cons x xs ih => simp only [List.map_cons, List.sum_cons, ih, add_div]

/-- C3 counterexample: with every class ignored (`[0.2, 0.3, 0.5]` and all
three labels in the ignore set), the `handleResults` renormalization
yields the empty list — not the original unfiltered distribution. -/
theorem renormalize_all_ignored_empty :
    renormalizeIgnored exampleProbs ["Neutral", "Happy", "Sad"] = [] ∧
    renormalizeIgnored exampleProbs ["Neutral", "Happy", "Sad"] ≠ exampleProbs := by
  have h0 : renormalizeIgnored exampleProbs ["Neutral", "Happy", "Sad"] = [] := by
    rw [renormalizeIgnored_eq]
    simp [exampleProbs, List.filter_cons]
  refine ⟨h0, ?_⟩
  rw [h0]
  simp [exampleProbs]

/-- C3 (amended): the `handleResults` renormalization zeroes out ignored
classes and divides each remaining probability by the sum of the remaining
probabilities (`[0.2, 0.3, 0.5]` with class 2 "Sad" ignored yields
`[0.4, 0.6]`, and whenever the retained sum is nonzero the renormalized
probabilities sum to 1); when every class is ignored the renormalized list
is empty and the selected best item falls back to `{label: '',
probability: 0}` — the original distribution is not restored. -/
theorem renormalizeIgnored_spec :
    renormalizeIgnored exampleProbs ["Sad"] =
      [{ label := "Neutral", probability := 2/5 },
       { label := "Happy", probability := 3/5 }] ∧
    (∀ (mapped : List LabeledProb) (ignored : List String),
      ((mapped.filter (fun item => !(ignored.contains item.label))).map
        (fun item => item.probability)).sum ≠ 0 →
      ((renormalizeIgnored mapped ignored).map (fun item => item.probability)).sum = 1) ∧
    (∀ (mapped : List LabeledProb) (ignored : List String),
      mapped.filter (fun item => !(ignored.contains item.label)) = [] →
      renormalizeIgnored mapped ignored = [] ∧
      bestOf (renormalizeIgnored mapped ignored) = { label := "", probability := 0 }) := by
  refine ⟨?_, ?_, ?_⟩
  · rw [renormalizeIgnored_eq]
    simp [exampleProbs, List.filter_cons, orOne]
    norm_num
  · intro mapped ignored h
    rw [renormalizeIgnored_eq, sum_proj_div, orOne, if_neg h]
    exact div_self h
  · intro mapped ignored h
    have h0 : renormalizeIgnored mapped ignored = [] := by
      rw [renormalizeIgnored_eq, h]; rfl
    exact ⟨h0, by rw [h0]; rfl⟩

/-- Witness for `renormalizeIgnored_spec`: the retained sum of the example
distribution with "Sad" ignored is nonzero and the renormalized
probabilities sum to 1; ignoring all three labels empties the filter and
the renormalized list. -/
theorem renormalizeIgnored_spec_witness :
    ((renormalizeIgnored exampleProbs ["Sad"]).map (fun item => item.probability)).sum = 1 ∧
    renormalizeIgnored exampleProbs ["Neutral", "Happy", "Sad"] = [] :=
  ⟨renormalizeIgnored_spec.2.1 exampleProbs ["Sad"]
     (by simp [exampleProbs, List.filter_cons]; norm_num),
   (renormalizeIgnored_spec.2.2 exampleProbs ["Neutral", "Happy", "Sad"]
     (by simp [exampleProbs, List.filter_cons])).1⟩

/-- C9: the face crop stage returns `null` when no face box is supplied;
a face box of width 0 or height 0 never reaches the stage — the
`handleResults` guard `boxWidth > 0 && boxHeight > 0` skips the crop — so
no division by a zero width occurs; and every crop the stage does produce
has output height at least 1 pixel. -/
theorem faceCrop_no_div_by_zero (outputWidth paddingFactor canvasW canvasH : ℚ) :
    processCanvas outputWidth paddingFactor canvasW canvasH none = none ∧
    (∀ minX minY maxX maxY : ℚ, maxX - minX = 0 ∨ maxY - minY = 0 →
      handleResultsCropStep outputWidth paddingFactor canvasW canvasH
        minX minY maxX maxY = none) ∧
    (∀ (fb : FaceBox) (r : CropResult),
      processCanvas outputWidth paddingFactor canvasW canvasH (some fb) = some r →
      1 ≤ r.outH) := by
  refine ⟨rfl, ?_, ?_⟩
  · intro minX minY maxX maxY h
    unfold handleResultsCropStep
    rw [if_neg]
    rintro ⟨h1, h2⟩
    rcases h with h | h <;> linarith
  · intro fb r h
    unfold processCanvas at h
    injection h with h'
    subst h'
    exact le_max_left 1 _

/-- Witness for `faceCrop_no_div_by_zero`: a degenerate zero-width box is
skipped, and a concrete 10×10 box at the origin crops to a 256×256
output. -/
theorem faceCrop_no_div_by_zero_witness :
    handleResultsCropStep 256 (1/5) 640 480 10 20 10 40 = none ∧
    1 ≤ (CropResult.mk 0 0 12 12 256 256).outH :=
  ⟨(faceCrop_no_div_by_zero 256 (1/5) 640 480).2.1 10 20 10 40 (Or.inl (by norm_num)),
   (faceCrop_no_div_by_zero 256 (1/5) 640 480).2.2 ⟨0, 0, 10, 10⟩ ⟨0, 0, 12, 12, 256, 256⟩
     (by norm_num [processCanvas, jsRound])⟩

/-- Dividing a positive list by its sum yields entries in `[0,1]` summing
to 1. -/
theorem div_sum_list_bounds (e : List ℝ) (hne : e ≠ []) (hpos : ∀ x ∈ e, 0 < x) :
    (∀ p ∈ e.map (fun x => x / e.sum), 0 ≤ p ∧ p ≤ 1) ∧
    (e.map (fun x => x / e.sum)).sum = 1 := by
  have hS : 0 < e.sum := List.sum_pos e hpos hne
  constructor
  · intro p hp
    obtain ⟨x, hx, rfl⟩ := List.mem_map.1 hp
    exact ⟨le_of_lt (div_pos (hpos x hx) hS),
      (div_le_one hS).2 (List.single_le_sum (fun y hy => le_of_lt (hpos y hy)) x hx)⟩
  · rw [list_sum_map_div]
    exact div_self (ne_of_gt hS)

/-- C2 counterexample: on the empty logit vector the softmax
post-processing yields an empty probability vector whose sum is 0, not 1
within 1e-6. -/
theorem softmax_empty_not_normalized :
    (mapClassificationLogitsToClassDetails ([] : List ℝ)
      engagementFallbackLabels).probabilities = [] ∧
    ¬ (|((mapClassificationLogitsToClassDetails ([] : List ℝ)
        engagementFallbackLabels).probabilities).sum - 1| ≤ 1/1000000) := by
  have h0 : (mapClassificationLogitsToClassDetails ([] : List ℝ)
      engagementFallbackLabels).probabilities = [] := rfl
  refine ⟨h0, ?_⟩
  rw [h0]
  simp only [List.sum_nil]
  rw [show |(0 : ℝ) - 1| = 1 by norm_num]
  norm_num

/-- Every branch of `mapClassificationLogitsToClassDetails` carries the
softmax vector in its `probabilities` field. -/
theorem mapClassification_probabilities (logits : List ℝ) (labels : Int → Option String) :
    (mapClassificationLogitsToClassDetails logits labels).probabilities =
      softmaxProbabilities logits := by
  simp only [mapClassificationLogitsToClassDetails]
  cases hm : labels (classIndexOf (softmaxProbabilities logits)) with
  | some name => rfl
  | none => split_ifs <;> rfl

/-- C2: for every nonempty logit vector, the softmax of
`mapClassificationLogitsToClassDetails` (subtract max, exponentiate,
divide by the sum) yields probabilities that all lie in `[0,1]` and sum to
1 within 1e-6 (exactly 1 over the reals). -/
theorem softmax_probabilities_valid (logits : List ℝ) (h : logits ≠ []) :
    (∀ p ∈ (mapClassificationLogitsToClassDetails logits
        engagementFallbackLabels).probabilities, 0 ≤ p ∧ p ≤ 1) ∧
    |((mapClassificationLogitsToClassDetails logits
        engagementFallbackLabels).probabilities).sum - 1| ≤ 1/1000000 := by
  have hprob := mapClassification_probabilities logits engagementFallbackLabels
  have hE : softmaxProbabilities logits =
      (logits.map (fun l => Real.exp (l - jsMax logits))).map
        (fun x => x / (logits.map (fun l => Real.exp (l - jsMax logits))).sum) := rfl
  have hne : logits.map (fun l => Real.exp (l - jsMax logits)) ≠ [] := by
    simpa using h
  have hpos : ∀ x ∈ logits.map (fun l => Real.exp (l - jsMax logits)), 0 < x := by
    intro x hx
    obtain ⟨l, -, rfl⟩ := List.mem_map.1 hx
    exact Real.exp_pos _
  obtain ⟨hb, hs⟩ := div_sum_list_bounds _ hne hpos
  rw [hprob, hE]
  refine ⟨hb, ?_⟩
  rw [hs]
  norm_num

/-- Witness for `softmax_probabilities_valid` at the logit vector
`[0, 0]`. -/
theorem softmax_probabilities_valid_witness :
    (∀ p ∈ (mapClassificationLogitsToClassDetails [(0 : ℝ), 0]
        engagementFallbackLabels).probabilities, 0 ≤ p ∧ p ≤ 1) ∧
    |((mapClassificationLogitsToClassDetails [(0 : ℝ), 0]
        engagementFallbackLabels).probabilities).sum - 1| ≤ 1/1000000 :=
  softmax_probabilities_valid [0, 0] (by simp)

/-- The argmax scan commutes with a strictly monotone map of the
values. -/
theorem argmaxAux_map_mono (f : ℝ → ℝ) (hf : StrictMono f) :
    ∀ (xs : List ℝ) (i bi : Nat) (bv : ℝ),
      argmaxAux (xs.map f) i bi (f bv) =
        ((argmaxAux xs i bi bv).1, f (argmaxAux xs i bi bv).2) := by
  intro xs
  induction xs with
  | nil => intro i bi bv; rfl
  | cons x xs ih =>
    intro i bi bv
    simp only [List.map_cons, argmaxAux]
    by_cases hlt : bv < x
    · rw [if_pos (hf hlt), if_pos hlt, ih]
    · rw [if_neg (fun hc => hlt (hf.lt_iff_lt.1 hc)), if_neg hlt, ih]

/-- The argmax scan returns a running maximum that bounds the carried
value and all scanned values, and is attained either at the carried pair
or at a scanned position. -/
theorem argmaxAux_spec :
    ∀ (xs : List ℝ) (i bi : Nat) (bv : ℝ),
      bv ≤ (argmaxAux xs i bi bv).2 ∧
      (∀ x ∈ xs, x ≤ (argmaxAux xs i bi bv).2) ∧
      (argmaxAux xs i bi bv = (bi, bv) ∨
        ∃ j, ∃ hj : j < xs.length, (argmaxAux xs i bi bv).1 = i + j ∧
          (argmaxAux xs i bi bv).2 = xs.get ⟨j, hj⟩) := by
  intro xs
  induction xs with
  | nil => intro i bi bv; exact ⟨le_refl _, by simp, Or.inl rfl⟩
  | cons x xs ih =>
    intro i bi bv
    simp only [argmaxAux]
    by_cases hlt : bv < x
    · rw [if_pos hlt]
      obtain ⟨h1, h2, h3⟩ := ih (i + 1) i x
      refine ⟨le_of_lt (lt_of_lt_of_le hlt h1), ?_, ?_⟩
      · intro y hy
        rcases List.mem_cons.1 hy with rfl | hy
        · exact h1
        · exact h2 y hy
      · rcases h3 with heq | ⟨j, hj, hji, hjv⟩
        · right
          refine ⟨0, by simp, ?_, ?_⟩
          · rw [heq]; simp
          · rw [heq]; simp
        · right
          refine ⟨j + 1, by simpa using Nat.succ_lt_succ hj, ?_, ?_⟩
          · rw [hji]; omega
          · rw [hjv]; rfl
    · rw [if_neg hlt]
      obtain ⟨h1, h2, h3⟩ := ih (i + 1) bi bv
      refine ⟨h1, ?_, ?_⟩
      · intro y hy
        rcases List.mem_cons.1 hy with rfl | hy
        · exact le_trans (le_of_not_lt hlt) h1
        · exact h2 y hy
      · rcases h3 with heq | ⟨j, hj, hji, hjv⟩
        · left; exact heq
        · right
          refine ⟨j + 1, by simpa using Nat.succ_lt_succ hj, ?_, ?_⟩
          · rw [hji]; omega
          · rw [hjv]; rfl

/-- On a nonempty list the argmax scan lands on a position attaining the
maximum of the list. -/
theorem classIndexOf_attains (a : ℝ) (as : List ℝ) :
    ∃ hk : (classIndexOf (a :: as)).toNat < (a :: as).length,
      ∀ x ∈ a :: as, x ≤ (a :: as).get ⟨(classIndexOf (a :: as)).toNat, hk⟩ := by
  obtain ⟨h1, h2, h3⟩ := argmaxAux_spec as 1 0 a
  have hidx : (classIndexOf (a :: as)).toNat = (argmaxAux as 1 0 a).1 := by
    simp [classIndexOf, Int.toNat_natCast]
  rcases h3 with heq | ⟨j, hj, hji, hjv⟩
  · have hk : (classIndexOf (a :: as)).toNat < (a :: as).length := by
      rw [hidx, heq]; simp
    refine ⟨hk, ?_⟩
    intro x hx
    have hget : (a :: as).get ⟨(classIndexOf (a :: as)).toNat, hk⟩ = a := by
      have : (argmaxAux as 1 0 a).1 = 0 := by rw [heq]
      simp [hidx, this]
    rw [hget]
    have hv : (argmaxAux as 1 0 a).2 = a := by rw [heq]
    rcases List.mem_cons.1 hx with rfl | hx
    · exact le_refl _
    · exact hv ▸ h2 x hx
  · have hk : (classIndexOf (a :: as)).toNat < (a :: as).length := by
      rw [hidx, hji]; simp; omega
    refine ⟨hk, ?_⟩
    intro x hx
    have hget : (a :: as).get ⟨(classIndexOf (a :: as)).toNat, hk⟩ =
        (argmaxAux as 1 0 a).2 := by
      have h10 : (1 : Nat) + j = j + 1 := by omega
      rw [hjv]
      have : (classIndexOf (a :: as)).toNat = j + 1 := by rw [hidx, hji, h10]
      simp only [this]
      rfl
    rw [hget]
    rcases List.mem_cons.1 hx with rfl | hx
    · exact h1
    · exact h2 x hx

/-- The softmax pipeline as a single per-logit map. -/
theorem softmaxProbabilities_as_map (logits : List ℝ) :
    softmaxProbabilities logits =
      logits.map (fun x => Real.exp (x - jsMax logits) /
        (logits.map (fun l => Real.exp (l - jsMax logits))).sum) := by
  simp only [softmaxProbabilities, List.map_map]
  rfl

/-- `index` of the details object is always the scan result on the
softmax vector. -/
theorem mapClassification_index (logits : List ℝ) (labels : Int → Option String) :
    (mapClassificationLogitsToClassDetails logits labels).index =
      classIndexOf (softmaxProbabilities logits) := by
  simp only [mapClassificationLogitsToClassDetails]
  cases hm : labels (classIndexOf (softmaxProbabilities logits)) with
  | some name => rfl
  | none =>
    split_ifs with hi
    · rfl
    · exact (not_ne_iff.mp hi).symm

/-- The argmax scan result is unchanged by a strictly monotone map of the
values. -/
theorem classIndexOf_map_mono (f : ℝ → ℝ) (hf : StrictMono f) (l : List ℝ) :
    classIndexOf (l.map f) = classIndexOf l := by
  cases l with
  | nil => rfl
  | cons a as =>
    show ((argmaxAux (as.map f) 1 0 (f a)).1 : Int) = _
    rw [argmaxAux_map_mono f hf as 1 0 a]
    rfl

/-- Softmax does not change the scan-selected class index. -/
theorem classIndexOf_softmax_eq (logits : List ℝ) (h : logits ≠ []) :
    classIndexOf (softmaxProbabilities logits) = classIndexOf logits := by
  rw [softmaxProbabilities_as_map]
  apply classIndexOf_map_mono
  intro x y hxy
  have hSpos : 0 < (logits.map (fun l => Real.exp (l - jsMax logits))).sum := by
    apply List.sum_pos
    · intro z hz
      obtain ⟨l, -, rfl⟩ := List.mem_map.1 hz
      exact Real.exp_pos _
    · simpa using h
  exact (div_lt_div_iff_of_pos_right hSpos).2 (Real.exp_lt_exp.2 (by linarith))

/-- C10: for every nonempty logit vector, the class index selected by
`mapClassificationLogitsToClassDetails` (index of maximal softmax
probability, first on ties) is in range and the raw logit at that index
attains the maximum of the raw logit vector — softmax never changes which
class wins. -/
theorem softmax_preserves_argmax (logits : List ℝ) (h : logits ≠ []) :
    ((mapClassificationLogitsToClassDetails logits
        engagementFallbackLabels).index).toNat < logits.length ∧
    ∀ x ∈ logits,
      x ≤ logits.getD ((mapClassificationLogitsToClassDetails logits
        engagementFallbackLabels).index).toNat 0 := by
  cases logits with
  | nil => exact absurd rfl h
  | cons a as =>
    simp only [mapClassification_index, classIndexOf_softmax_eq (a :: as) (by simp)]
    obtain ⟨hk, hmax⟩ := classIndexOf_attains a as
    refine ⟨hk, ?_⟩
    intro x hx
    rw [List.getD_eq_getElem _ _ hk]
    simpa [List.get_eq_getElem] using hmax x hx

/-- Witness for `softmax_preserves_argmax` at the logit vector
`[1, 3, 2]`. -/
theorem softmax_preserves_argmax_witness :
    ((mapClassificationLogitsToClassDetails [(1 : ℝ), 3, 2]
        engagementFallbackLabels).index).toNat < ([(1 : ℝ), 3, 2] : List ℝ).length ∧
    ∀ x ∈ [(1 : ℝ), 3, 2],
      x ≤ ([(1 : ℝ), 3, 2] : List ℝ).getD
        ((mapClassificationLogitsToClassDetails [(1 : ℝ), 3, 2]
          engagementFallbackLabels).index).toNat 0 :=
  softmax_preserves_argmax [1, 3, 2] (by simp)

/-- C6: for every 478-landmark array and any frame dimensions, if the raw
inter-ocular distance is below the epsilon 1e-6 the scale falls back to
`imageWidth / 4`, and to `1.0` if that is also below the epsilon; the
scale actually used is therefore always at least 1e-6 — in particular
nonzero, so over the reals the normalized output is a well-defined
division everywhere and can contain no NaN or Infinity. -/
theorem normalizeLandmarks_fallback_safe (landmarks : List Point3)
    (imageWidth imageHeight : ℝ) (hlen : landmarks.length = 478) :
    (interOcularRaw landmarks imageWidth imageHeight < 1e-6 →
      interOcularScale (interOcularRaw landmarks imageWidth imageHeight) imageWidth =
        (if imageWidth / 4 < 1e-6 then 1 else imageWidth / 4)) ∧
    (1e-6 : ℝ) ≤ interOcularScale (interOcularRaw landmarks imageWidth imageHeight)
      imageWidth ∧
    interOcularScale (interOcularRaw landmarks imageWidth imageHeight) imageWidth ≠ 0 ∧
    normalizeLandmarks landmarks imageWidth imageHeight =
      some ((landmarksCentered3d landmarks imageWidth imageHeight).map (fun lm =>
        (lm.1 / interOcularScale (interOcularRaw landmarks imageWidth imageHeight)
          imageWidth,
         lm.2.1 / interOcularScale (interOcularRaw landmarks imageWidth imageHeight)
          imageWidth,
         lm.2.2 / interOcularScale (interOcularRaw landmarks imageWidth imageHeight)
          imageWidth))) := by
  have hscale : (1e-6 : ℝ) ≤
      interOcularScale (interOcularRaw landmarks imageWidth imageHeight) imageWidth := by
    unfold interOcularScale
    split_ifs with hd hw
    · norm_num
    · exact le_of_not_lt hw
    · exact le_of_not_lt hd
  refine ⟨?_, hscale, ?_, ?_⟩
  · intro hd
    unfold interOcularScale
    rw [if_pos hd]
  · intro hc
    rw [hc] at hscale
    norm_num at hscale
  · unfold normalizeLandmarks
    rw [if_neg (by rw [hlen]; simp)]

/-- Witness for `normalizeLandmarks_fallback_safe`: a fully degenerate
input (all landmarks at the origin, zero frame dimensions) still yields a
scale of at least 1e-6. -/
theorem normalizeLandmarks_fallback_safe_witness :
    (1e-6 : ℝ) ≤
      interOcularScale (interOcularRaw (List.replicate 478 ((0 : ℝ), 0, 0)) 0 0) 0 :=
  (normalizeLandmarks_fallback_safe (List.replicate 478 ((0 : ℝ), 0, 0)) 0 0
    (by rw [List.length_replicate])).2.1

/-- `getD` commutes with `map` at an in-range index. -/
theorem getD_map_of_lt (f : Point3 → Point3) (l : List Point3) (i : Nat)
    (hi : i < l.length) (d : Point3) :
    (l.map f).getD i d = f (l.getD i d) := by
  rw [List.getD_eq_getElem _ _ (by simpa using hi), List.getD_eq_getElem _ _ hi,
    List.getElem_map]

/-- C8: in `applyDistanceNormalization`, a landmark whose coordinate
triple contains the sentinel value appears in the output unchanged, an
all-sentinel frame is returned entirely unchanged, and a frame whose
reference landmarks (nose tip, eye corners) contain a sentinel is
returned entirely unchanged. -/
theorem distanceNormalization_sentinel_passthrough (frame : List Point3) (i : Nat) :
    (HasSentinel (frame.getD i sentinelPoint) →
      (normalizeFrame frame).getD i sentinelPoint = frame.getD i sentinelPoint) ∧
    (FrameAllSentinel frame → normalizeFrame frame = frame) ∧
    (RefsInvalid frame → normalizeFrame frame = frame) := by
  have hall : ∀ fr : List Point3, FrameAllSentinel fr → normalizeFrame fr = fr := by
    intro fr h
    simp only [normalizeFrame]
    rw [if_pos h]
  have hrefs : RefsInvalid frame → normalizeFrame frame = frame := by
    intro h
    by_cases h0 : FrameAllSentinel frame
    · exact hall frame h0
    · simp only [normalizeFrame]
      rw [if_neg h0, if_pos h]
  refine ⟨?_, hall frame, hrefs⟩
  intro hsent
  by_cases h0 : FrameAllSentinel frame
  · rw [hall frame h0]
  by_cases h1 : RefsInvalid frame
  · rw [hrefs h1]
  by_cases hi : i < frame.length
  · have htrans : (translatedFrame frame).getD i sentinelPoint =
        frame.getD i sentinelPoint := by
      simp only [translatedFrame]
      rw [getD_map_of_lt _ _ _ hi, if_pos hsent]
    simp only [normalizeFrame]
    rw [if_neg h0, if_neg h1]
    split_ifs with hsd
    · exact htrans
    · rw [getD_map_of_lt _ _ _ (by simpa [translatedFrame] using hi), htrans]
      simp only [scaleClampPoint]
      rw [if_pos hsent]
  · have hlen : (normalizeFrame frame).length = frame.length := by
      simp only [normalizeFrame]
      rw [if_neg h0, if_neg h1]
      split_ifs <;> simp [translatedFrame]
    rw [List.getD_eq_default _ _ (by omega), List.getD_eq_default _ _ (by omega)]

/-- Witness for `distanceNormalization_sentinel_passthrough` at the
one-point all-sentinel frame. -/
theorem distanceNormalization_sentinel_witness :
    (normalizeFrame [sentinelPoint]).getD 0 sentinelPoint =
      ([sentinelPoint] : List Point3).getD 0 sentinelPoint ∧
    normalizeFrame [sentinelPoint] = [sentinelPoint] ∧
    normalizeFrame [sentinelPoint] = [sentinelPoint] :=
  ⟨(distanceNormalization_sentinel_passthrough [sentinelPoint] 0).1
     (by simp [HasSentinel, sentinelPoint]),
   (distanceNormalization_sentinel_passthrough [sentinelPoint] 0).2.1
     (by intro c hc; simpa using hc),
   (distanceNormalization_sentinel_passthrough [sentinelPoint] 0).2.2
     (by simp [RefsInvalid, HasSentinel, sentinelPoint, NOSE_TIP_IDX])⟩

/-- Scaling every coordinate of a triple scales its Euclidean norm by the
absolute factor. -/
theorem norm3_scale (c : Point3) (k : ℝ) :
    norm3 (c.1 * k, c.2.1 * k, c.2.2 * k) = norm3 c * |k| := by
  show Real.sqrt ((c.1 * k) ^ 2 + (c.2.1 * k) ^ 2 + (c.2.2 * k) ^ 2) =
    Real.sqrt (c.1 ^ 2 + c.2.1 ^ 2 + c.2.2 ^ 2) * |k|
  rw [show (c.1 * k) ^ 2 + (c.2.1 * k) ^ 2 + (c.2.2 * k) ^ 2 =
      (c.1 ^ 2 + c.2.1 ^ 2 + c.2.2 ^ 2) * k ^ 2 by ring]
  rw [Real.sqrt_mul (by positivity), Real.sqrt_sq_eq_abs]

/-- The per-point scaling step never produces a point of norm above 5:
outliers are rescaled exactly onto the boundary, the rest land inside
it. -/
theorem scaleClampPoint_norm_le (sd : ℝ) (hsd : (1e-6 : ℝ) ≤ sd) (t : Point3)
    (ht : ¬ HasSentinel t) :
    norm3 (scaleClampPoint sd t) ≤ 5 := by
  have hsd0 : 0 < sd := lt_of_lt_of_le (by norm_num) hsd
  simp only [scaleClampPoint]
  rw [if_neg ht]
  split_ifs with hclamp
  · have hdistpos : 0 < norm3 t := lt_trans (by positivity) hclamp
    have hrw : (t.1 * (5 * sd / norm3 t) / sd,
        t.2.1 * (5 * sd / norm3 t) / sd,
        t.2.2 * (5 * sd / norm3 t) / sd) =
        (t.1 * (5 * sd / norm3 t / sd),
         t.2.1 * (5 * sd / norm3 t / sd),
         t.2.2 * (5 * sd / norm3 t / sd)) := by
      simp only [Prod.mk.injEq]
      exact ⟨by ring, by ring, by ring⟩
    rw [hrw, norm3_scale, abs_of_nonneg (by positivity)]
    have h5 : norm3 t * (5 * sd / norm3 t / sd) = 5 := by
      field_simp
      ring
    rw [h5]
  · have hrw : ((t.1 / sd, t.2.1 / sd, t.2.2 / sd) : Point3) =
        (t.1 * (1 / sd), t.2.1 * (1 / sd), t.2.2 * (1 / sd)) := by
      rw [mul_one_div, mul_one_div, mul_one_div]
    rw [hrw, norm3_scale, abs_of_nonneg (by positivity), mul_one_div]
    exact (div_le_iff₀ hsd0).2 (by linarith [not_lt.1 hclamp])

/-- C7: for a frame that reaches the scaling branch of
`applyDistanceNormalization` (valid references, scale distance at least
1e-6), the output is the clamped scaling of the translated frame, and
every non-sentinel point of it has Euclidean norm at most 5 after the
division by the scale distance. -/
theorem distanceNormalization_clamp (frame : List Point3)
    (h0 : ¬ FrameAllSentinel frame) (h1 : ¬ RefsInvalid frame)
    (h3 : (1e-6 : ℝ) ≤ scaleDistanceOf frame) :
    normalizeFrame frame =
      (translatedFrame frame).map (scaleClampPoint (scaleDistanceOf frame)) ∧
    ∀ t ∈ translatedFrame frame, ¬ HasSentinel t →
      norm3 (scaleClampPoint (scaleDistanceOf frame) t) ≤ 5 := by
  constructor
  · simp only [normalizeFrame]
    rw [if_neg h0, if_neg h1, if_neg (not_lt.2 h3)]
  · intro t _ hsent
    exact scaleClampPoint_norm_le _ h3 t hsent

/-- Nose-tip slot of the example frame. -/
theorem exampleFrame_getD_nose :
    exampleFrame.getD NOSE_TIP_IDX sentinelPoint = ((0 : ℝ), 0, 0) := by
  simp only [exampleFrame, NOSE_TIP_IDX]
  rw [List.getD_eq_getElem _ _ (by rw [List.length_set, List.length_replicate]; omega),
    List.getElem_set, if_neg (by omega), List.getElem_replicate]

/-- Left outer eye slot of the example frame. -/
theorem exampleFrame_getD_leftEye :
    exampleFrame.getD LEFT_EYE_OUTER_IDX sentinelPoint = ((1 : ℝ), 0, 0) := by
  simp only [exampleFrame, LEFT_EYE_OUTER_IDX]
  rw [List.getD_eq_getElem _ _ (by rw [List.length_set, List.length_replicate]; omega),
    List.getElem_set, if_pos rfl]

/-- Right outer eye slot of the example frame. -/
theorem exampleFrame_getD_rightEye :
    exampleFrame.getD RIGHT_EYE_OUTER_IDX sentinelPoint = ((0 : ℝ), 0, 0) := by
  simp only [exampleFrame, RIGHT_EYE_OUTER_IDX]
  rw [List.getD_eq_getElem _ _ (by rw [List.length_set, List.length_replicate]; omega),
    List.getElem_set, if_neg (by omega), List.getElem_replicate]

/-- Scale distance of the example frame is exactly 1. -/
theorem exampleFrame_scaleDistance : scaleDistanceOf exampleFrame = 1 := by
  simp only [scaleDistanceOf]
  rw [exampleFrame_getD_leftEye, exampleFrame_getD_rightEye]
  rw [show ((1 : ℝ) - 0) ^ 2 + ((0 : ℝ) - 0) ^ 2 = 1 by norm_num, Real.sqrt_one]

/-- The example frame's reference landmarks carry no sentinel. -/
theorem exampleFrame_refs_valid : ¬ RefsInvalid exampleFrame := by
  simp only [RefsInvalid]
  rw [exampleFrame_getD_nose, exampleFrame_getD_leftEye, exampleFrame_getD_rightEye]
  simp only [HasSentinel]
  norm_num

/-- The example frame is not entirely sentinel. -/
theorem exampleFrame_not_all_sentinel : ¬ FrameAllSentinel exampleFrame := by
  intro hall
  have hmem : exampleFrame.getD NOSE_TIP_IDX sentinelPoint ∈ exampleFrame := by
    rw [List.getD_eq_getElem _ _ (by
      simp only [exampleFrame]
      rw [List.length_set, List.length_replicate]
      norm_num [NOSE_TIP_IDX])]
    exact List.getElem_mem _
  have := hall _ hmem
  rw [exampleFrame_getD_nose] at this
  simp only [sentinelPoint, Prod.mk.injEq] at this
  norm_num at this

/-- Witness for `distanceNormalization_clamp` at the example frame (scale
distance 1). -/
theorem distanceNormalization_clamp_witness :
    normalizeFrame exampleFrame =
      (translatedFrame exampleFrame).map (scaleClampPoint (scaleDistanceOf exampleFrame)) :=
  (distanceNormalization_clamp exampleFrame exampleFrame_not_all_sentinel
    exampleFrame_refs_valid
    (by rw [exampleFrame_scaleDistance]; norm_num)).1

/-- Flattening a frame of coordinate triples yields three numbers per
landmark. -/
theorem length_coords_flatten (fr : List Point3) :
    ((fr.map coordsList).flatten).length = 3 * fr.length := by
  induction fr with
  | nil => simp
  | cons c cs ih =>
    simp only [List.map_cons, List.flatten_cons, List.length_append, ih, coordsList,
      List.length_cons]
    simp
    omega

/-- With the active config (sequence length 1, no normalization) the
preprocessed frames are the single filled frame array. -/
theorem preprocessFrames_active (F : List (List LmEntry)) :
    preprocessFrames getActiveModelConfig F = [buildFrameArray 478 (F.getD 0 [])] := rfl

/-- The filled frame array always has exactly the declared landmark
count. -/
theorem buildFrameArray_length (n : Nat) (frame : List LmEntry) :
    (buildFrameArray n frame).length = n := by
  simp [buildFrameArray]

/-- Slot `j` of the filled frame array is the valid entry `j` when there
is one, the sentinel otherwise. -/
theorem buildFrameArray_getD (n : Nat) (frame : List LmEntry) (j : Nat) (hj : j < n) :
    (buildFrameArray n frame).getD j sentinelPoint =
      (match frame[j]? with
       | some (some p) => p
       | _ => sentinelPoint) := by
  rw [List.getD_eq_getElem _ _ (by rw [buildFrameArray_length]; omega)]
  simp only [buildFrameArray, List.getElem_map, List.getElem_range]
  rfl

/-- C1: for every input landmark array — of any length, empty or with
missing/non-numeric entries — `preprocessLandmarks` under the active
model config returns a flat buffer of length exactly
`sequenceLength * numLandmarks * numCoords = 1 * 478 * 3`, and every slot
not filled by a valid input landmark holds the sentinel −1.0 in all three
coordinates. -/
theorem preprocess_tensor_shape (landmarks : List LmEntry) :
    (preprocessLandmarks getActiveModelConfig landmarks).length = 1 * 478 * 3 ∧
    ∀ i j : Nat, i < 1 → j < 478 →
      (∀ p : Point3, ((toFrames landmarks).getD i [])[j]? ≠ some (some p)) →
      ((preprocessFrames getActiveModelConfig (toFrames landmarks)).getD i []).getD j
        sentinelPoint = sentinelPoint := by
  constructor
  · show (((preprocessFrames getActiveModelConfig (toFrames landmarks)).map
      (fun fr => (fr.map coordsList).flatten)).flatten).length = 1 * 478 * 3
    rw [preprocessFrames_active]
    simp only [List.map_cons, List.map_nil, List.flatten_cons, List.flatten_nil,
      List.append_nil, length_coords_flatten, buildFrameArray_length]
  · intro i j hi hj hnot
    have hi0 : i = 0 := by omega
    subst hi0
    rw [preprocessFrames_active]
    have hhd : ([buildFrameArray 478 ((toFrames landmarks).getD 0 [])].getD 0 []) =
        buildFrameArray 478 ((toFrames landmarks).getD 0 []) := rfl
    rw [hhd, buildFrameArray_getD _ _ _ hj]
    cases hfj : ((toFrames landmarks).getD 0 [])[j]? with
    | none => rfl
    | some e =>
      cases e with
      | none => rfl
      | some p => exact absurd hfj (hnot p)

/-- Witness for `preprocess_tensor_shape`: a one-landmark single frame
fills only slot 0; slot 5 is unfilled and remains the sentinel, and the
buffer length is 1434. -/
theorem preprocess_tensor_shape_witness :
    (preprocessLandmarks getActiveModelConfig [some ((1/2 : ℝ), 1/2, 0)]).length =
      1 * 478 * 3 ∧
    ((preprocessFrames getActiveModelConfig
        (toFrames [some ((1/2 : ℝ), 1/2, 0)])).getD 0 []).getD 5 sentinelPoint =
      sentinelPoint :=
  ⟨(preprocess_tensor_shape [some ((1/2 : ℝ), 1/2, 0)]).1,
   (preprocess_tensor_shape [some ((1/2 : ℝ), 1/2, 0)]).2 0 5 (by omega) (by omega)
     (by intro p h; simp [toFrames] at h)⟩

end EmotionsClient
